import Mathlib

/-!
Shallow embedding of the interval-jitter scheduler (`src/index.js` of the
tonix-tuft/interval-jitter repository) together with theorems about its
interval-bound validation, its callback policy, its scheduling loop and its
start/stop lifecycle.

JavaScript values relevant to the scheduler's behaviour are modelled by the
inductive type `JSVal`: actual numbers are rationals (`Rat`), with `NaN`,
`undefined`, `null`, booleans and functions as separate constructors.
Functions are represented by an opaque-tag constructor `fn`; their return
values are supplied by an environment parameter where needed.  Comparison
operators follow the JavaScript abstract relational comparison restricted to
this domain: both operands are converted with `ToNumber` and any comparison
involving `NaN` is false.
-/

/-- The domain of JavaScript values the scheduler manipulates: numbers
(modelled as rationals, with `NaN` split off as its own constructor),
`undefined`, `null`, booleans, and functions (represented by a tag). -/
inductive JSVal where
  | num (q : ℚ)
  | nan
  | undef
  | null
  | bool (b : Bool)
  | fn (tag : ℕ)
deriving DecidableEq, Repr

/-- JavaScript truthiness (`ToBoolean`) on `JSVal`: `0`, `NaN`, `undefined`,
`null` and `false` are falsy; every other value of this domain is truthy. -/
def toBoolean : JSVal → Bool
  | JSVal.num q => decide (q ≠ 0)
  | JSVal.nan => false
  | JSVal.undef => false
  | JSVal.null => false
  | JSVal.bool b => b
  | JSVal.fn _ => true

/-- JavaScript `ToNumber` on `JSVal`; `none` stands for `NaN`
(`undefined` and functions convert to `NaN`, `null` to `0`,
booleans to `0`/`1`). -/
def toNumber : JSVal → Option ℚ
  | JSVal.num q => some q
  | JSVal.nan => none
  | JSVal.undef => none
  | JSVal.null => some 0
  | JSVal.bool b => some (if b then 1 else 0)
  | JSVal.fn _ => none

/-- JavaScript `a < b` on this domain: both operands are converted with
`ToNumber`; any comparison involving `NaN` yields `false`. -/
def jsLt (a b : JSVal) : Bool :=
  match toNumber a, toNumber b with
  | some x, some y => decide (x < y)
  | _, _ => false

/-- JavaScript `a > b`, i.e. `b < a` under the abstract relational
comparison. -/
def jsGt (a b : JSVal) : Bool :=
  jsLt b a

/-- `typeof v === "function"`. -/
def typeofFunction : JSVal → Bool
  | JSVal.fn _ => true
  | _ => false

/-- `typeof v === "number"` (`NaN` is of number type in JavaScript). -/
def typeofNumber : JSVal → Bool
  | JSVal.num _ => true
  | JSVal.nan => true
  | _ => false

/-- `const INTERVAL_JITTER_DEFAULT_MAX_INTERVAL = 1000;` (src/index.js). -/
def INTERVAL_JITTER_DEFAULT_MAX_INTERVAL : ℚ := 1000

/-- `const INTERVAL_JITTER_MAX_INTERVAL = 2147483647;` (src/index.js). -/
def INTERVAL_JITTER_MAX_INTERVAL : ℚ := 2147483647

/-- The own fields of an `IntervalJitter` instance exactly as assigned by the
constructor and the prototype methods in src/index.js: `callback`, `stopped`,
`minInterval`, `maxInterval`, the two timer-handle fields (modelled as
`Option ℕ`, `none` standing for `null`/`undefined`, `some id` for a timer id
returned by `setTimeout`), and the `randomInterval` field written by `run`
(`undef` before the first iteration). -/
structure IntervalJitter where
  callback : JSVal
  stopped : Bool
  minInterval : JSVal
  maxInterval : JSVal
  outerTimeoutTimer : Option ℕ
  innerTimeoutTimer : Option ℕ
  randomInterval : JSVal
deriving DecidableEq, Repr

namespace IntervalJitter

/-- `IntervalJitter.prototype.setMinInterval` (src/index.js lines 96-107):

```js
if ((minInterval !== 0 && !minInterval) || minInterval < 0 ||
    minInterval > INTERVAL_JITTER_MAX_INTERVAL || minInterval > this.maxInterval)
  this.minInterval = 0;
else this.minInterval = minInterval;
``` -/
def setMinInterval (self : IntervalJitter) (minInterval : JSVal) : IntervalJitter :=
  if (minInterval ≠ JSVal.num 0 ∧ toBoolean minInterval = false)
      ∨ jsLt minInterval (JSVal.num 0) = true
      ∨ jsGt minInterval (JSVal.num INTERVAL_JITTER_MAX_INTERVAL) = true
      ∨ jsGt minInterval self.maxInterval = true then
    { self with minInterval := JSVal.num 0 }
  else
    { self with minInterval := minInterval }

/-- `IntervalJitter.prototype.setMaxInterval` (src/index.js lines 115-127):

```js
if ((maxInterval !== 0 && !maxInterval) || maxInterval < 0 ||
    maxInterval < this.minInterval)
  this.maxInterval = INTERVAL_JITTER_DEFAULT_MAX_INTERVAL;
else if (maxInterval > INTERVAL_JITTER_MAX_INTERVAL)
  this.maxInterval = INTERVAL_JITTER_MAX_INTERVAL;
else this.maxInterval = maxInterval;
``` -/
def setMaxInterval (self : IntervalJitter) (maxInterval : JSVal) : IntervalJitter :=
  if (maxInterval ≠ JSVal.num 0 ∧ toBoolean maxInterval = false)
      ∨ jsLt maxInterval (JSVal.num 0) = true
      ∨ jsLt maxInterval self.minInterval = true then
    { self with maxInterval := JSVal.num INTERVAL_JITTER_DEFAULT_MAX_INTERVAL }
  else if jsGt maxInterval (JSVal.num INTERVAL_JITTER_MAX_INTERVAL) = true then
    { self with maxInterval := JSVal.num INTERVAL_JITTER_MAX_INTERVAL }
  else
    { self with maxInterval := maxInterval }

/-- `IntervalJitter.prototype.setCallback` (src/index.js lines 135-139):
replaces the callback only when `typeof callback === "function"`. -/
def setCallback (self : IntervalJitter) (callback : JSVal) : IntervalJitter :=
  if typeofFunction callback then { self with callback := callback } else self

/-- `IntervalJitter.prototype.onCallbackExecuted` (src/index.js lines
180-182): the default hook does nothing and returns `undefined`; as a state
transformer it is the identity. -/
def onCallbackExecuted (self : IntervalJitter) (_res : JSVal) : IntervalJitter :=
  self

end IntervalJitter

/-- The constructor `function IntervalJitter(callback, {minInterval = 0,
maxInterval = INTERVAL_JITTER_DEFAULT_MAX_INTERVAL} = {})` (src/index.js
lines 53-88).  The destructuring defaults apply when the corresponding option
property is absent or `undefined`; `this.callback = callback` is
unconditional; `setMinInterval` runs while `this.maxInterval` is still
`undefined`; finally both timer-handle fields are set to `null`. -/
def newIntervalJitter (callback minOpt maxOpt : JSVal) : IntervalJitter :=
  let minInterval := if minOpt = JSVal.undef then JSVal.num 0 else minOpt
  let maxInterval :=
    if maxOpt = JSVal.undef then JSVal.num INTERVAL_JITTER_DEFAULT_MAX_INTERVAL else maxOpt
  let self : IntervalJitter :=
    { callback := callback
      stopped := true
      minInterval := JSVal.undef
      maxInterval := JSVal.undef
      outerTimeoutTimer := none
      innerTimeoutTimer := none
      randomInterval := JSVal.undef }
  let self := self.setMinInterval minInterval
  let self := self.setMaxInterval maxInterval
  { self with outerTimeoutTimer := none, innerTimeoutTimer := none }

/-!
The scheduling loop.  `run` (src/index.js lines 149-169) drives a cooperative
loop through the host timer queue: `loop` checks `this.stopped`, draws a
random delay, and schedules a one-shot outer timeout; when that outer timeout
fires it invokes the callback, invokes `onCallbackExecuted` with the result,
and schedules a zero-delay inner timeout whose firing re-enters `loop`.
`stop` (lines 191-199) clears whichever of the two recorded handles is truthy
and sets `stopped`.

The host timer queue is modelled explicitly: `Sys` pairs the instance with
the queue of this instance's pending timers (id and kind), a fresh-id counter
(starting at 1, since JavaScript timer ids are truthy), and an observation
trace recording callback invocations, hook invocations and timer scheduling.
`Math.random()` is modelled by a rational parameter `r` supplied at each loop
entry; the return value of the (opaque) user callback is supplied by an
environment function `cbRet`.
-/

/-- The two kinds of one-shot timers the loop schedules: the delay wait
(`outerTimeoutTimer`) and the zero-delay yield (`innerTimeoutTimer`). -/
inductive TimerKind where
  | outer
  | inner
deriving DecidableEq, Repr

/-- Observable events of an execution: a callback invocation with its result,
an `onCallbackExecuted` hook invocation with the result it receives, and the
scheduling of an outer or inner timer with its id. -/
inductive Ev where
  | cb (res : JSVal)
  | hook (res : JSVal)
  | schedOuter (id : ℕ)
  | schedInner (id : ℕ)
deriving DecidableEq, Repr

/-- An `IntervalJitter` instance together with the host timer queue holding
this instance's pending timers, the next fresh timer id, and the observation
trace. -/
structure Sys where
  jit : IntervalJitter
  pending : List (ℕ × TimerKind)
  nextId : ℕ
  trace : List Ev
deriving DecidableEq, Repr

/-- A freshly constructed instance seen by the host: no pending timers, ids
start at 1 (JavaScript timer ids are nonzero), empty trace. -/
def initSys (j : IntervalJitter) : Sys :=
  { jit := j, pending := [], nextId := 1, trace := [] }

/-- `Math.floor(Math.random() * (this.maxInterval - this.minInterval + 1)) +
this.minInterval` (src/index.js lines 155-157), with JavaScript arithmetic on
the possibly non-numeric bound fields: every operand goes through `ToNumber`
and `NaN` (here `none`) propagates; the result is stored back as a `JSVal`. -/
def drawDelay (r : ℚ) (self : IntervalJitter) : JSVal :=
  let spread :=
    match toNumber self.maxInterval, toNumber self.minInterval with
    | some b, some a => some (b - a + 1)
    | _, _ => none
  match spread, toNumber self.minInterval with
  | some s, some a => JSVal.num ((⌊r * s⌋ : ℤ) + a)
  | _, _ => JSVal.nan

namespace Sys

/-- One entry of `loop` (src/index.js lines 150-168): return immediately when
`this.stopped` is set; otherwise draw the random delay, store it in
`this.randomInterval`, and schedule the outer one-shot timeout, recording its
id in `this.outerTimeoutTimer`. -/
def loopStep (r : ℚ) (s : Sys) : Sys :=
  if s.jit.stopped then s
  else
    let randomInterval := drawDelay r s.jit
    let id := s.nextId
    { jit :=
        { s.jit with
          randomInterval := randomInterval
          outerTimeoutTimer := some id }
      pending := s.pending ++ [(id, TimerKind.outer)]
      nextId := id + 1
      trace := s.trace ++ [Ev.schedOuter id] }

/-- `IntervalJitter.prototype.run` (src/index.js lines 149-169): set
`this.stopped = false` and enter the loop once. -/
def run (r : ℚ) (s : Sys) : Sys :=
  loopStep r { s with jit := { s.jit with stopped := false } }

/-- The host fires pending timer `id` (a non-pending id fires nothing).  An
outer timer's body (src/index.js lines 158-165) invokes the callback —
`cbRet` supplies the opaque callback's return value — then invokes
`onCallbackExecuted` with that result, then schedules the zero-delay inner
timeout recording its id in `this.innerTimeoutTimer`.  An inner timer's body
re-enters `loop`, with `r` as that entry's `Math.random()` draw. -/
def fireTimer (cbRet : JSVal → JSVal) (id : ℕ) (r : ℚ) (s : Sys) : Sys :=
  if (id, TimerKind.outer) ∈ s.pending then
    let s1 : Sys := { s with pending := s.pending.filter (fun p => p.1 != id) }
    let res := cbRet s1.jit.callback
    let jit1 := (s1.jit.onCallbackExecuted res)
    { s1 with
      jit := { jit1 with innerTimeoutTimer := some s1.nextId }
      pending := s1.pending ++ [(s1.nextId, TimerKind.inner)]
      nextId := s1.nextId + 1
      trace := s1.trace ++ [Ev.cb res, Ev.hook res, Ev.schedInner s1.nextId] }
  else if (id, TimerKind.inner) ∈ s.pending then
    loopStep r { s with pending := s.pending.filter (fun p => p.1 != id) }
  else s

/-- `clearTimeout` guarded by the truthiness test on the stored handle
(`if (this.outerTimeoutTimer) clearTimeout(this.outerTimeoutTimer)`):
a truthy (nonzero, non-null) handle removes the timer with that id from the
pending queue; clearing an absent or already-fired id is a harmless no-op. -/
def clearIfTruthy (p : List (ℕ × TimerKind)) (h : Option ℕ) : List (ℕ × TimerKind) :=
  match h with
  | some i => if i ≠ 0 then p.filter (fun q => q.1 != i) else p
  | none => p

/-- `IntervalJitter.prototype.stop` (src/index.js lines 191-199): clear the
outer handle if truthy, clear the inner handle if truthy, set
`this.stopped = true`.  The handle fields themselves are not modified. -/
def stop (s : Sys) : Sys :=
  let p := clearIfTruthy s.pending s.jit.outerTimeoutTimer
  let p := clearIfTruthy p s.jit.innerTimeoutTimer
  { s with pending := p, jit := { s.jit with stopped := true } }

/-- Fire a whole sequence of timers (each with the `Math.random()` value used
if its firing re-enters the loop).  This is what the host can do on its own
after the embedding code stops calling into the instance. -/
def fireAll (cbRet : JSVal → JSVal) (l : List (ℕ × ℚ)) (s : Sys) : Sys :=
  l.foldl (fun t p => fireTimer cbRet p.1 p.2 t) s

end Sys

/-- Everything the embedding code and the host can do to a constructed
instance: call `run`, call `stop`, call a setter, or fire a pending timer. -/
inductive Op where
  | runOp (r : ℚ)
  | stopOp
  | fireOp (id : ℕ) (r : ℚ)
  | setMinOp (v : JSVal)
  | setMaxOp (v : JSVal)
  | setCbOp (v : JSVal)
deriving DecidableEq, Repr

/-- Apply one operation to the system state. -/
def applyOp (cbRet : JSVal → JSVal) (s : Sys) : Op → Sys
  | Op.runOp r => Sys.run r s
  | Op.stopOp => Sys.stop s
  | Op.fireOp id r => Sys.fireTimer cbRet id r s
  | Op.setMinOp v => { s with jit := s.jit.setMinInterval v }
  | Op.setMaxOp v => { s with jit := s.jit.setMaxInterval v }
  | Op.setCbOp v => { s with jit := s.jit.setCallback v }

/-- Apply a sequence of operations. -/
def execOps (cbRet : JSVal → JSVal) (s : Sys) (ops : List Op) : Sys :=
  ops.foldl (applyOp cbRet) s

/-- Number of callback invocations recorded in a trace. -/
def countCb (tr : List Ev) : ℕ :=
  tr.countP (fun e => match e with | Ev.cb _ => true | _ => false)

/-- Number of `onCallbackExecuted` hook invocations recorded in a trace. -/
def countHook (tr : List Ev) : ℕ :=
  tr.countP (fun e => match e with | Ev.hook _ => true | _ => false)

/-- Both bound fields hold actual numbers in `[0, INTERVAL_JITTER_MAX_INTERVAL]`. -/
def boundsInRange (j : IntervalJitter) : Prop :=
  ∃ a b : ℚ, j.minInterval = JSVal.num a ∧ j.maxInterval = JSVal.num b
    ∧ 0 ≤ a ∧ a ≤ INTERVAL_JITTER_MAX_INTERVAL
    ∧ 0 ≤ b ∧ b ≤ INTERVAL_JITTER_MAX_INTERVAL

/-- Every pending timer of the instance is recorded (with a truthy id) in one
of the two handle fields.  This holds along every single-loop execution; it is
exactly what a second overlapping `run` destroys, since the later loop
overwrites `outerTimeoutTimer` while the earlier loop's timer is still
pending. -/
def Tracked (s : Sys) : Prop :=
  ∀ p ∈ s.pending,
    p.1 ≠ 0 ∧ (s.jit.outerTimeoutTimer = some p.1 ∨ s.jit.innerTimeoutTimer = some p.1)

instance (s : Sys) : Decidable (Tracked s) := by
  unfold Tracked
  infer_instance

/-!
Frame lemmas: each mutator of src/index.js assigns exactly one own field.
-/

@[simp] theorem setMin_callback (j : IntervalJitter) (v : JSVal) :
    (j.setMinInterval v).callback = j.callback := by
  unfold IntervalJitter.setMinInterval; split_ifs <;> rfl

@[simp] theorem setMin_stopped (j : IntervalJitter) (v : JSVal) :
    (j.setMinInterval v).stopped = j.stopped := by
  unfold IntervalJitter.setMinInterval; split_ifs <;> rfl

@[simp] theorem setMin_maxInterval (j : IntervalJitter) (v : JSVal) :
    (j.setMinInterval v).maxInterval = j.maxInterval := by
  unfold IntervalJitter.setMinInterval; split_ifs <;> rfl

@[simp] theorem setMin_outer (j : IntervalJitter) (v : JSVal) :
    (j.setMinInterval v).outerTimeoutTimer = j.outerTimeoutTimer := by
  unfold IntervalJitter.setMinInterval; split_ifs <;> rfl

@[simp] theorem setMin_inner (j : IntervalJitter) (v : JSVal) :
    (j.setMinInterval v).innerTimeoutTimer = j.innerTimeoutTimer := by
  unfold IntervalJitter.setMinInterval; split_ifs <;> rfl

@[simp] theorem setMin_random (j : IntervalJitter) (v : JSVal) :
    (j.setMinInterval v).randomInterval = j.randomInterval := by
  unfold IntervalJitter.setMinInterval; split_ifs <;> rfl

@[simp] theorem setMax_callback (j : IntervalJitter) (v : JSVal) :
    (j.setMaxInterval v).callback = j.callback := by
  unfold IntervalJitter.setMaxInterval; split_ifs <;> rfl

@[simp] theorem setMax_stopped (j : IntervalJitter) (v : JSVal) :
    (j.setMaxInterval v).stopped = j.stopped := by
  unfold IntervalJitter.setMaxInterval; split_ifs <;> rfl

@[simp] theorem setMax_minInterval (j : IntervalJitter) (v : JSVal) :
    (j.setMaxInterval v).minInterval = j.minInterval := by
  unfold IntervalJitter.setMaxInterval; split_ifs <;> rfl

@[simp] theorem setMax_outer (j : IntervalJitter) (v : JSVal) :
    (j.setMaxInterval v).outerTimeoutTimer = j.outerTimeoutTimer := by
  unfold IntervalJitter.setMaxInterval; split_ifs <;> rfl

@[simp] theorem setMax_inner (j : IntervalJitter) (v : JSVal) :
    (j.setMaxInterval v).innerTimeoutTimer = j.innerTimeoutTimer := by
  unfold IntervalJitter.setMaxInterval; split_ifs <;> rfl

@[simp] theorem setMax_random (j : IntervalJitter) (v : JSVal) :
    (j.setMaxInterval v).randomInterval = j.randomInterval := by
  unfold IntervalJitter.setMaxInterval; split_ifs <;> rfl

@[simp] theorem setCb_minInterval (j : IntervalJitter) (v : JSVal) :
    (j.setCallback v).minInterval = j.minInterval := by
  unfold IntervalJitter.setCallback; split_ifs <;> rfl

@[simp] theorem setCb_maxInterval (j : IntervalJitter) (v : JSVal) :
    (j.setCallback v).maxInterval = j.maxInterval := by
  unfold IntervalJitter.setCallback; split_ifs <;> rfl

@[simp] theorem setCb_stopped (j : IntervalJitter) (v : JSVal) :
    (j.setCallback v).stopped = j.stopped := by
  unfold IntervalJitter.setCallback; split_ifs <;> rfl

@[simp] theorem setCb_outer (j : IntervalJitter) (v : JSVal) :
    (j.setCallback v).outerTimeoutTimer = j.outerTimeoutTimer := by
  unfold IntervalJitter.setCallback; split_ifs <;> rfl

@[simp] theorem setCb_inner (j : IntervalJitter) (v : JSVal) :
    (j.setCallback v).innerTimeoutTimer = j.innerTimeoutTimer := by
  unfold IntervalJitter.setCallback; split_ifs <;> rfl

@[simp] theorem setCb_random (j : IntervalJitter) (v : JSVal) :
    (j.setCallback v).randomInterval = j.randomInterval := by
  unfold IntervalJitter.setCallback; split_ifs <;> rfl

/-- A number argument to `setMinInterval` is either clamped to `0` or stored
verbatim, and in the latter case the negated validity checks bound it. -/
theorem setMin_num_cases (j : IntervalJitter) (q : ℚ) :
    (j.setMinInterval (JSVal.num q)).minInterval = JSVal.num 0
    ∨ ((j.setMinInterval (JSVal.num q)).minInterval = JSVal.num q
        ∧ 0 ≤ q ∧ q ≤ INTERVAL_JITTER_MAX_INTERVAL) := by
  unfold IntervalJitter.setMinInterval
  split_ifs with h
  · exact Or.inl rfl
  · push_neg at h
    obtain ⟨-, h1, h2, -⟩ := h
    refine Or.inr ⟨rfl, ?_, ?_⟩
    · simp only [jsLt, toNumber, decide_eq_true_eq] at h1
      simpa using h1
    · simp only [jsGt, jsLt, toNumber, decide_eq_true_eq] at h2
      simpa using h2

/-- A number argument to `setMaxInterval` results in the default, the upper
clamp, or the verbatim value; in the last case it lies in the valid range. -/
theorem setMax_num_cases (j : IntervalJitter) (q : ℚ) :
    (j.setMaxInterval (JSVal.num q)).maxInterval
        = JSVal.num INTERVAL_JITTER_DEFAULT_MAX_INTERVAL
    ∨ (j.setMaxInterval (JSVal.num q)).maxInterval = JSVal.num INTERVAL_JITTER_MAX_INTERVAL
    ∨ ((j.setMaxInterval (JSVal.num q)).maxInterval = JSVal.num q
        ∧ 0 ≤ q ∧ q ≤ INTERVAL_JITTER_MAX_INTERVAL) := by
  unfold IntervalJitter.setMaxInterval
  split_ifs with h1 h2
  · exact Or.inl rfl
  · exact Or.inr (Or.inl rfl)
  · push_neg at h1
    obtain ⟨-, hneg, -⟩ := h1
    refine Or.inr (Or.inr ⟨rfl, ?_, ?_⟩)
    · simp only [jsLt, toNumber, decide_eq_true_eq] at hneg
      simpa using hneg
    · simp only [jsGt, jsLt, toNumber, decide_eq_true_eq] at h2
      simpa using h2

/-- `setMinInterval(NaN)` clamps to `0` (NaN is non-zero and falsy). -/
theorem setMin_nan (j : IntervalJitter) :
    (j.setMinInterval JSVal.nan).minInterval = JSVal.num 0 := by
  unfold IntervalJitter.setMinInterval
  rw [if_pos (Or.inl ⟨by decide, rfl⟩)]

/-- `setMaxInterval(NaN)` resets to the default (NaN is non-zero and falsy). -/
theorem setMax_nan (j : IntervalJitter) :
    (j.setMaxInterval JSVal.nan).maxInterval
      = JSVal.num INTERVAL_JITTER_DEFAULT_MAX_INTERVAL := by
  unfold IntervalJitter.setMaxInterval
  rw [if_pos (Or.inl ⟨by decide, rfl⟩)]

/-- A number in the valid range of `setMinInterval` is stored verbatim. -/
theorem setMin_valid_num (j : IntervalJitter) (q M : ℚ)
    (hM : j.maxInterval = JSVal.num M) (h0 : 0 ≤ q)
    (h1 : q ≤ INTERVAL_JITTER_MAX_INTERVAL) (h2 : q ≤ M) :
    (j.setMinInterval (JSVal.num q)).minInterval = JSVal.num q := by
  unfold IntervalJitter.setMinInterval
  split_ifs with h
  · exfalso
    rw [hM] at h
    rcases h with ⟨hne, hb⟩ | h | h | h
    · simp only [toBoolean, decide_eq_false_iff_not, not_not] at hb
      exact hne (by rw [hb])
    · simp only [jsLt, toNumber, decide_eq_true_eq] at h; linarith
    · simp only [jsGt, jsLt, toNumber, decide_eq_true_eq] at h; linarith
    · simp only [jsGt, jsLt, toNumber, decide_eq_true_eq] at h; linarith
  · rfl

/-- A number in the valid range of `setMaxInterval` is stored verbatim. -/
theorem setMax_valid_num (j : IntervalJitter) (q m : ℚ)
    (hm : j.minInterval = JSVal.num m) (h0 : 0 ≤ m) (h1 : m ≤ q)
    (h2 : q ≤ INTERVAL_JITTER_MAX_INTERVAL) :
    (j.setMaxInterval (JSVal.num q)).maxInterval = JSVal.num q := by
  unfold IntervalJitter.setMaxInterval
  split_ifs with ha hb
  · exfalso
    rw [hm] at ha
    rcases ha with ⟨hne, hfb⟩ | h | h
    · simp only [toBoolean, decide_eq_false_iff_not, not_not] at hfb
      exact hne (by rw [hfb])
    · simp only [jsLt, toNumber, decide_eq_true_eq] at h; linarith
    · simp only [jsLt, toNumber, decide_eq_true_eq] at h; linarith
  · exfalso
    simp only [jsGt, jsLt, toNumber, decide_eq_true_eq] at hb; linarith
  · rfl

/-- C5 (amended): the constructor stores the supplied callback verbatim and
unconditionally, whether or not it is a function; no function check and no
no-op default are applied there. -/
theorem c5_constructor_callback_amended (callback minOpt maxOpt : JSVal) :
    (newIntervalJitter callback minOpt maxOpt).callback = callback := by
  simp [newIntervalJitter]

/-- C5 counterexample: constructing with the non-function callback `42`
leaves `42` — not a function, hence not any no-op default callback — stored
as the instance's callback, while `setCallback(42)` on an instance would
have been a no-op; so the constructor does not apply the setter's policy. -/
theorem c5_constructor_callback_counterexample :
    (newIntervalJitter (JSVal.num 42) JSVal.undef JSVal.undef).callback = JSVal.num 42
    ∧ typeofFunction (JSVal.num 42) = false
    ∧ ((newIntervalJitter (JSVal.fn 0) JSVal.undef JSVal.undef).setCallback
        (JSVal.num 42)).callback = JSVal.fn 0 := by
  decide

/-- C7: `setCallback(x)` replaces the stored callback when `x` is callable
(`typeof x === "function"`), and is a complete no-op — the whole instance
state, in particular the previously stored callback, is unchanged — when `x`
is not callable. -/
theorem c7_setCallback_policy (j : IntervalJitter) (v : JSVal) :
    (typeofFunction v = true → (j.setCallback v).callback = v)
    ∧ (typeofFunction v = false → j.setCallback v = j) := by
  unfold IntervalJitter.setCallback
  constructor
  · intro h; rw [if_pos h]
  · intro h; rw [if_neg (by simp [h])]

/-- C7 witness: on a freshly constructed instance, `setCallback` replaces the
callback for the function value `fn 3` and is a no-op for the number `5`. -/
theorem c7_setCallback_policy_witness :
    typeofFunction (JSVal.fn 3) = true
    ∧ ((newIntervalJitter (JSVal.fn 0) JSVal.undef JSVal.undef).setCallback
        (JSVal.fn 3)).callback = JSVal.fn 3
    ∧ typeofFunction (JSVal.num 5) = false
    ∧ (newIntervalJitter (JSVal.fn 0) JSVal.undef JSVal.undef).setCallback (JSVal.num 5)
        = newIntervalJitter (JSVal.fn 0) JSVal.undef JSVal.undef :=
  ⟨rfl, (c7_setCallback_policy _ _).1 rfl, rfl, (c7_setCallback_policy _ _).2 rfl⟩

/-- C9: each mutator touches only its designated field: `setMinInterval`
modifies only `minInterval`, `setMaxInterval` only `maxInterval`,
`setCallback` only `callback`, and `stop` only the `stopped` flag (it cancels
pending timers in the host queue without changing any other instance field);
consequently the two bounds and the callback survive a stop/run cycle
unchanged. -/
theorem c9_mutator_frames (j : IntervalJitter) (v : JSVal) (s : Sys) (r : ℚ) :
    ((j.setMinInterval v).callback = j.callback
      ∧ (j.setMinInterval v).stopped = j.stopped
      ∧ (j.setMinInterval v).maxInterval = j.maxInterval
      ∧ (j.setMinInterval v).outerTimeoutTimer = j.outerTimeoutTimer
      ∧ (j.setMinInterval v).innerTimeoutTimer = j.innerTimeoutTimer
      ∧ (j.setMinInterval v).randomInterval = j.randomInterval)
    ∧ ((j.setMaxInterval v).callback = j.callback
      ∧ (j.setMaxInterval v).stopped = j.stopped
      ∧ (j.setMaxInterval v).minInterval = j.minInterval
      ∧ (j.setMaxInterval v).outerTimeoutTimer = j.outerTimeoutTimer
      ∧ (j.setMaxInterval v).innerTimeoutTimer = j.innerTimeoutTimer
      ∧ (j.setMaxInterval v).randomInterval = j.randomInterval)
    ∧ ((j.setCallback v).stopped = j.stopped
      ∧ (j.setCallback v).minInterval = j.minInterval
      ∧ (j.setCallback v).maxInterval = j.maxInterval
      ∧ (j.setCallback v).outerTimeoutTimer = j.outerTimeoutTimer
      ∧ (j.setCallback v).innerTimeoutTimer = j.innerTimeoutTimer
      ∧ (j.setCallback v).randomInterval = j.randomInterval)
    ∧ ((Sys.stop s).jit.callback = s.jit.callback
      ∧ (Sys.stop s).jit.minInterval = s.jit.minInterval
      ∧ (Sys.stop s).jit.maxInterval = s.jit.maxInterval
      ∧ (Sys.stop s).jit.outerTimeoutTimer = s.jit.outerTimeoutTimer
      ∧ (Sys.stop s).jit.innerTimeoutTimer = s.jit.innerTimeoutTimer
      ∧ (Sys.stop s).jit.randomInterval = s.jit.randomInterval
      ∧ (Sys.stop s).jit.stopped = true)
    ∧ ((Sys.run r (Sys.stop s)).jit.minInterval = s.jit.minInterval
      ∧ (Sys.run r (Sys.stop s)).jit.maxInterval = s.jit.maxInterval
      ∧ (Sys.run r (Sys.stop s)).jit.callback = s.jit.callback) := by
  refine ⟨⟨?_, ?_, ?_, ?_, ?_, ?_⟩, ⟨?_, ?_, ?_, ?_, ?_, ?_⟩,
      ⟨?_, ?_, ?_, ?_, ?_, ?_⟩, ⟨rfl, rfl, rfl, rfl, rfl, rfl, rfl⟩, ?_⟩ <;>
    simp [Sys.run, Sys.loopStep, Sys.stop]

/-- C10: the setters neither round nor truncate: any rational (in particular
fractional) number that passes a setter's validity checks is stored verbatim
as the bound. -/
theorem c10_no_rounding (j : IntervalJitter) (q m M : ℚ) :
    (j.maxInterval = JSVal.num M → 0 ≤ q → q ≤ INTERVAL_JITTER_MAX_INTERVAL → q ≤ M →
      (j.setMinInterval (JSVal.num q)).minInterval = JSVal.num q)
    ∧ (j.minInterval = JSVal.num m → 0 ≤ m → m ≤ q →
        q ≤ INTERVAL_JITTER_MAX_INTERVAL →
      (j.setMaxInterval (JSVal.num q)).maxInterval = JSVal.num q) :=
  ⟨fun hM h0 h1 h2 => setMin_valid_num j q M hM h0 h1 h2,
   fun hm h0 h1 h2 => setMax_valid_num j q m hm h0 h1 h2⟩

/-- C10 witness: on a default instance (`min = 0`, `max = 1000`) the
fractional values `1/2` and `2001/2` are stored verbatim by the two setters. -/
theorem c10_no_rounding_witness :
    ((newIntervalJitter (JSVal.fn 0) JSVal.undef JSVal.undef).setMinInterval
        (JSVal.num (1/2))).minInterval = JSVal.num (1/2)
    ∧ ((newIntervalJitter (JSVal.fn 0) JSVal.undef JSVal.undef).setMaxInterval
        (JSVal.num (2001/2))).maxInterval = JSVal.num (2001/2) :=
  ⟨(c10_no_rounding _ (1/2) 0 1000).1 (by decide) (by norm_num)
      (by norm_num [INTERVAL_JITTER_MAX_INTERVAL]) (by norm_num),
   (c10_no_rounding _ (2001/2) 0 1000).2 (by decide) (by norm_num) (by norm_num)
      (by norm_num [INTERVAL_JITTER_MAX_INTERVAL])⟩

/-- C2 (amended): with a numeric current `maxInterval` `M`, `setMinInterval`
stores a number `q` verbatim when `0 ≤ q ≤ M` and `q ≤ 2147483647`, and
clamps a number outside that range to `0`; the falsy arguments `undefined`
(the missing-argument case), `null`, `NaN` and `false` are likewise clamped
to `0`.  (A truthy non-numeric argument, however, is stored verbatim — see
the counterexample.) -/
theorem c2_setMinInterval_amended (j : IntervalJitter) (v : JSVal) :
    (∀ q M : ℚ, v = JSVal.num q → j.maxInterval = JSVal.num M →
        ((0 ≤ q ∧ q ≤ INTERVAL_JITTER_MAX_INTERVAL ∧ q ≤ M) →
          (j.setMinInterval v).minInterval = JSVal.num q)
        ∧ ((q < 0 ∨ INTERVAL_JITTER_MAX_INTERVAL < q ∨ M < q) →
          (j.setMinInterval v).minInterval = JSVal.num 0))
    ∧ ((v = JSVal.undef ∨ v = JSVal.null ∨ v = JSVal.nan ∨ v = JSVal.bool false) →
        (j.setMinInterval v).minInterval = JSVal.num 0) := by
  constructor
  · rintro q M rfl hM
    refine ⟨fun h => setMin_valid_num j q M hM h.1 h.2.1 h.2.2, fun h => ?_⟩
    unfold IntervalJitter.setMinInterval
    split_ifs with hc
    · rfl
    · exfalso
      apply hc
      rcases h with h | h | h
      · exact Or.inr (Or.inl (by simpa [jsLt, toNumber] using h))
      · exact Or.inr (Or.inr (Or.inl (by simpa [jsGt, jsLt, toNumber] using h)))
      · exact Or.inr (Or.inr (Or.inr (by rw [hM]; simpa [jsGt, jsLt, toNumber] using h)))
  · rintro (rfl | rfl | rfl | rfl) <;>
      (unfold IntervalJitter.setMinInterval; rw [if_pos (Or.inl ⟨by decide, rfl⟩)])

/-- C2 counterexample: the truthy non-numeric value `true` is outside
`[0, maxInterval]` in the claim's sense (it is not a number at all), yet
`setMinInterval(true)` on a default instance stores `true` verbatim instead
of clamping `minInterval` to `0`. -/
theorem c2_setMinInterval_counterexample :
    ((newIntervalJitter (JSVal.fn 0) JSVal.undef JSVal.undef).setMinInterval
        (JSVal.bool true)).minInterval = JSVal.bool true
    ∧ typeofNumber (JSVal.bool true) = false
    ∧ ((newIntervalJitter (JSVal.fn 0) JSVal.undef JSVal.undef).setMinInterval
        (JSVal.bool true)).minInterval ≠ JSVal.num 0 := by
  decide

/-- C2 witness: on a default instance (`max = 1000`), `setMinInterval(7)`
stores `7`, `setMinInterval(2000)` (above the current max) clamps to `0`,
and the falsy `undefined` clamps to `0`. -/
theorem c2_setMinInterval_amended_witness :
    ((newIntervalJitter (JSVal.fn 0) JSVal.undef JSVal.undef).setMinInterval
        (JSVal.num 7)).minInterval = JSVal.num 7
    ∧ ((newIntervalJitter (JSVal.fn 0) JSVal.undef JSVal.undef).setMinInterval
        (JSVal.num 2000)).minInterval = JSVal.num 0
    ∧ ((newIntervalJitter (JSVal.fn 0) JSVal.undef JSVal.undef).setMinInterval
        JSVal.undef).minInterval = JSVal.num 0 :=
  ⟨((c2_setMinInterval_amended _ _).1 7 1000 rfl (by decide)).1
      (by norm_num [INTERVAL_JITTER_MAX_INTERVAL]),
   ((c2_setMinInterval_amended _ _).1 2000 1000 rfl (by decide)).2
      (by norm_num),
   (c2_setMinInterval_amended _ _).2 (Or.inl rfl)⟩

/-- C3 (amended): with a numeric current `minInterval` `m ≥ 0`,
`setMaxInterval` stores a number `q` verbatim when `m ≤ q ≤ 2147483647`,
clamps a number above `2147483647` (and `≥ m`) to `2147483647`, and resets a
negative or below-`m` number to the default `1000`; the falsy arguments
`undefined` (missing), `null`, `NaN` and `false` likewise reset to `1000`.
(A truthy non-numeric argument, however, is stored verbatim — see the
counterexample.) -/
theorem c3_setMaxInterval_amended (j : IntervalJitter) (v : JSVal) :
    (∀ q m : ℚ, v = JSVal.num q → j.minInterval = JSVal.num m → 0 ≤ m →
        ((m ≤ q ∧ q ≤ INTERVAL_JITTER_MAX_INTERVAL) →
          (j.setMaxInterval v).maxInterval = JSVal.num q)
        ∧ ((m ≤ q ∧ INTERVAL_JITTER_MAX_INTERVAL < q) →
          (j.setMaxInterval v).maxInterval = JSVal.num INTERVAL_JITTER_MAX_INTERVAL)
        ∧ ((q < 0 ∨ q < m) →
          (j.setMaxInterval v).maxInterval
            = JSVal.num INTERVAL_JITTER_DEFAULT_MAX_INTERVAL))
    ∧ ((v = JSVal.undef ∨ v = JSVal.null ∨ v = JSVal.nan ∨ v = JSVal.bool false) →
        (j.setMaxInterval v).maxInterval
          = JSVal.num INTERVAL_JITTER_DEFAULT_MAX_INTERVAL) := by
  constructor
  · rintro q m rfl hm h0
    refine ⟨fun h => setMax_valid_num j q m hm h0 h.1 h.2, fun h => ?_, fun h => ?_⟩
    · unfold IntervalJitter.setMaxInterval
      split_ifs with hc1 hc2
      · exfalso
        rw [hm] at hc1
        rcases hc1 with ⟨hne, hfb⟩ | hx | hx
        · simp only [toBoolean, decide_eq_false_iff_not, not_not] at hfb
          exact hne (by rw [hfb])
        · simp only [jsLt, toNumber, decide_eq_true_eq] at hx; linarith [h.1, h.2]
        · simp only [jsLt, toNumber, decide_eq_true_eq] at hx; linarith [h.1]
      · rfl
      · exfalso
        apply hc2
        simpa [jsGt, jsLt, toNumber] using h.2
    · unfold IntervalJitter.setMaxInterval
      have hcond : (JSVal.num q ≠ JSVal.num 0 ∧ toBoolean (JSVal.num q) = false)
          ∨ jsLt (JSVal.num q) (JSVal.num 0) = true
          ∨ jsLt (JSVal.num q) j.minInterval = true := by
        rcases h with h | h
        · exact Or.inr (Or.inl (by simpa [jsLt, toNumber] using h))
        · exact Or.inr (Or.inr (by rw [hm]; simpa [jsLt, toNumber] using h))
      rw [if_pos hcond]
  · rintro (rfl | rfl | rfl | rfl) <;>
      (unfold IntervalJitter.setMaxInterval; rw [if_pos (Or.inl ⟨by decide, rfl⟩)])

/-- C3 counterexample: the truthy non-numeric value `true` is neither
missing nor a number, yet `setMaxInterval(true)` on a default instance
stores `true` verbatim instead of resetting `maxInterval` to `1000`. -/
theorem c3_setMaxInterval_counterexample :
    ((newIntervalJitter (JSVal.fn 0) JSVal.undef JSVal.undef).setMaxInterval
        (JSVal.bool true)).maxInterval = JSVal.bool true
    ∧ typeofNumber (JSVal.bool true) = false
    ∧ ((newIntervalJitter (JSVal.fn 0) JSVal.undef JSVal.undef).setMaxInterval
        (JSVal.bool true)).maxInterval ≠ JSVal.num 1000 := by
  decide

/-- C3 witness: on a default instance (`min = 0`), `setMaxInterval(5000)`
stores `5000`, `setMaxInterval(3000000000)` clamps to `2147483647`,
`setMaxInterval(-1)` resets to `1000`, and the falsy `undefined` resets to
`1000`. -/
theorem c3_setMaxInterval_amended_witness :
    ((newIntervalJitter (JSVal.fn 0) JSVal.undef JSVal.undef).setMaxInterval
        (JSVal.num 5000)).maxInterval = JSVal.num 5000
    ∧ ((newIntervalJitter (JSVal.fn 0) JSVal.undef JSVal.undef).setMaxInterval
        (JSVal.num 3000000000)).maxInterval = JSVal.num 2147483647
    ∧ ((newIntervalJitter (JSVal.fn 0) JSVal.undef JSVal.undef).setMaxInterval
        (JSVal.num (-1))).maxInterval = JSVal.num 1000
    ∧ ((newIntervalJitter (JSVal.fn 0) JSVal.undef JSVal.undef).setMaxInterval
        JSVal.undef).maxInterval = JSVal.num 1000 :=
  ⟨((c3_setMaxInterval_amended _ _).1 5000 0 rfl (by decide) le_rfl).1
      ⟨by norm_num, by norm_num [INTERVAL_JITTER_MAX_INTERVAL]⟩,
   ((c3_setMaxInterval_amended _ _).1 3000000000 0 rfl (by decide) le_rfl).2.1
      ⟨by norm_num, by norm_num [INTERVAL_JITTER_MAX_INTERVAL]⟩,
   ((c3_setMaxInterval_amended _ _).1 (-1) 0 rfl (by decide) le_rfl).2.2
      (Or.inl (by norm_num)),
   (c3_setMaxInterval_amended _ _).2 (Or.inl rfl)⟩

/-- Applying `setMinInterval` and then `setMaxInterval` with arguments of
number type (actual numbers or NaN) always leaves both bound fields holding
numbers within `[0, INTERVAL_JITTER_MAX_INTERVAL]`, whatever the prior state
(in particular with the constructor's still-undefined `maxInterval`). -/
theorem setMin_setMax_boundsInRange (j : IntervalJitter) (mi mx : JSVal)
    (hmi : (∃ q, mi = JSVal.num q) ∨ mi = JSVal.nan)
    (hmx : (∃ q, mx = JSVal.num q) ∨ mx = JSVal.nan) :
    boundsInRange ((j.setMinInterval mi).setMaxInterval mx) := by
  have hminval : ∃ a, (j.setMinInterval mi).minInterval = JSVal.num a
      ∧ 0 ≤ a ∧ a ≤ INTERVAL_JITTER_MAX_INTERVAL := by
    rcases hmi with ⟨q, rfl⟩ | rfl
    · rcases setMin_num_cases j q with h | ⟨h, h0, h1⟩
      · exact ⟨0, h, le_refl 0, by norm_num [INTERVAL_JITTER_MAX_INTERVAL]⟩
      · exact ⟨q, h, h0, h1⟩
    · exact ⟨0, setMin_nan j, le_refl 0, by norm_num [INTERVAL_JITTER_MAX_INTERVAL]⟩
  obtain ⟨a, ha, ha0, ha1⟩ := hminval
  have hmaxval : ∃ b, ((j.setMinInterval mi).setMaxInterval mx).maxInterval = JSVal.num b
      ∧ 0 ≤ b ∧ b ≤ INTERVAL_JITTER_MAX_INTERVAL := by
    rcases hmx with ⟨q, rfl⟩ | rfl
    · rcases setMax_num_cases (j.setMinInterval mi) q with h | h | ⟨h, h0, h1⟩
      · exact ⟨INTERVAL_JITTER_DEFAULT_MAX_INTERVAL, h,
          by norm_num [INTERVAL_JITTER_DEFAULT_MAX_INTERVAL],
          by norm_num [INTERVAL_JITTER_DEFAULT_MAX_INTERVAL, INTERVAL_JITTER_MAX_INTERVAL]⟩
      · exact ⟨INTERVAL_JITTER_MAX_INTERVAL, h,
          by norm_num [INTERVAL_JITTER_MAX_INTERVAL], le_refl _⟩
      · exact ⟨q, h, h0, h1⟩
    · exact ⟨INTERVAL_JITTER_DEFAULT_MAX_INTERVAL, setMax_nan _,
        by norm_num [INTERVAL_JITTER_DEFAULT_MAX_INTERVAL],
        by norm_num [INTERVAL_JITTER_DEFAULT_MAX_INTERVAL, INTERVAL_JITTER_MAX_INTERVAL]⟩
  obtain ⟨b, hb, hb0, hb1⟩ := hmaxval
  exact ⟨a, b, by rw [setMax_minInterval]; exact ha, hb, ha0, ha1, hb0, hb1⟩

/-- Helper for the constructor: any construction whose options are of number
type or absent produces numeric bounds in `[0, INTERVAL_JITTER_MAX_INTERVAL]`.
-/
theorem newIntervalJitter_boundsInRange (cb mo mx : JSVal)
    (hmo : mo = JSVal.undef ∨ typeofNumber mo = true)
    (hmx : mx = JSVal.undef ∨ typeofNumber mx = true) :
    boundsInRange (newIntervalJitter cb mo mx) := by
  have hmi : (∃ q, (if mo = JSVal.undef then JSVal.num 0 else mo) = JSVal.num q)
      ∨ (if mo = JSVal.undef then JSVal.num 0 else mo) = JSVal.nan := by
    rcases hmo with rfl | h
    · exact Or.inl ⟨0, by simp⟩
    · cases mo with
      | num q => exact Or.inl ⟨q, by simp⟩
      | nan => exact Or.inr (by simp)
      | undef => exact Or.inl ⟨0, by simp⟩
      | null => simp [typeofNumber] at h
      | bool b => simp [typeofNumber] at h
      | fn t => simp [typeofNumber] at h
  have hmxv : (∃ q, (if mx = JSVal.undef
          then JSVal.num INTERVAL_JITTER_DEFAULT_MAX_INTERVAL else mx) = JSVal.num q)
      ∨ (if mx = JSVal.undef
          then JSVal.num INTERVAL_JITTER_DEFAULT_MAX_INTERVAL else mx) = JSVal.nan := by
    rcases hmx with rfl | h
    · exact Or.inl ⟨INTERVAL_JITTER_DEFAULT_MAX_INTERVAL, by simp⟩
    · cases mx with
      | num q => exact Or.inl ⟨q, by simp⟩
      | nan => exact Or.inr (by simp)
      | undef => exact Or.inl ⟨INTERVAL_JITTER_DEFAULT_MAX_INTERVAL, by simp⟩
      | null => simp [typeofNumber] at h
      | bool b => simp [typeofNumber] at h
      | fn t => simp [typeofNumber] at h
  obtain ⟨a, b, h1, h2, h3, h4, h5, h6⟩ :=
    setMin_setMax_boundsInRange
      { callback := cb, stopped := true, minInterval := JSVal.undef,
        maxInterval := JSVal.undef, outerTimeoutTimer := none,
        innerTimeoutTimer := none, randomInterval := JSVal.undef }
      _ _ hmi hmxv
  exact ⟨a, b, h1, h2, h3, h4, h5, h6⟩

/-- C1 (amended): after construction with options of number type (or absent)
and after every setter call with an argument of number type, both
`minInterval` and `maxInterval` hold numbers in `[0, 2147483647]`.  The
relation `minInterval ≤ maxInterval` is NOT invariant — see the
counterexample — and truthy non-numeric inputs can store non-numeric
bounds. -/
theorem c1_bounds_invariant_amended :
    (∀ cb mo mx : JSVal,
        (mo = JSVal.undef ∨ typeofNumber mo = true) →
        (mx = JSVal.undef ∨ typeofNumber mx = true) →
        boundsInRange (newIntervalJitter cb mo mx))
    ∧ (∀ (j : IntervalJitter) (v : JSVal), boundsInRange j → typeofNumber v = true →
        boundsInRange (j.setMinInterval v) ∧ boundsInRange (j.setMaxInterval v)) := by
  constructor
  · exact newIntervalJitter_boundsInRange
  · rintro j v ⟨a, b, hja, hjb, ha0, ha1, hb0, hb1⟩ hv
    constructor
    · cases v with
      | num q =>
          rcases setMin_num_cases j q with h | ⟨h, h0, h1⟩
          · exact ⟨0, b, h, by rw [setMin_maxInterval]; exact hjb, le_refl 0,
              by norm_num [INTERVAL_JITTER_MAX_INTERVAL], hb0, hb1⟩
          · exact ⟨q, b, h, by rw [setMin_maxInterval]; exact hjb, h0, h1, hb0, hb1⟩
      | nan =>
          exact ⟨0, b, setMin_nan j, by rw [setMin_maxInterval]; exact hjb, le_refl 0,
            by norm_num [INTERVAL_JITTER_MAX_INTERVAL], hb0, hb1⟩
      | undef => simp [typeofNumber] at hv
      | null => simp [typeofNumber] at hv
      | bool bb => simp [typeofNumber] at hv
      | fn t => simp [typeofNumber] at hv
    · cases v with
      | num q =>
          rcases setMax_num_cases j q with h | h | ⟨h, h0, h1⟩
          · exact ⟨a, INTERVAL_JITTER_DEFAULT_MAX_INTERVAL,
              by rw [setMax_minInterval]; exact hja, h, ha0, ha1,
              by norm_num [INTERVAL_JITTER_DEFAULT_MAX_INTERVAL],
              by norm_num [INTERVAL_JITTER_DEFAULT_MAX_INTERVAL,
                INTERVAL_JITTER_MAX_INTERVAL]⟩
          · exact ⟨a, INTERVAL_JITTER_MAX_INTERVAL,
              by rw [setMax_minInterval]; exact hja, h, ha0, ha1,
              by norm_num [INTERVAL_JITTER_MAX_INTERVAL], le_refl _⟩
          · exact ⟨a, q, by rw [setMax_minInterval]; exact hja, h, ha0, ha1, h0, h1⟩
      | nan =>
          exact ⟨a, INTERVAL_JITTER_DEFAULT_MAX_INTERVAL,
            by rw [setMax_minInterval]; exact hja, setMax_nan j, ha0, ha1,
            by norm_num [INTERVAL_JITTER_DEFAULT_MAX_INTERVAL],
            by norm_num [INTERVAL_JITTER_DEFAULT_MAX_INTERVAL,
              INTERVAL_JITTER_MAX_INTERVAL]⟩
      | undef => simp [typeofNumber] at hv
      | null => simp [typeofNumber] at hv
      | bool bb => simp [typeofNumber] at hv
      | fn t => simp [typeofNumber] at hv

/-- C1 counterexample: constructing with `{minInterval: 2000}` and the
default `maxInterval` yields `minInterval = 2000 > maxInterval = 1000`
(during construction `setMinInterval` is validated against a still-undefined
`maxInterval`, so any value up to `2147483647` is accepted; the default max
then resets to `1000` because it is below the new min), refuting the
invariant `minInterval ≤ maxInterval`. -/
theorem c1_bounds_invariant_counterexample :
    (newIntervalJitter (JSVal.fn 0) (JSVal.num 2000) JSVal.undef).minInterval
        = JSVal.num 2000
    ∧ (newIntervalJitter (JSVal.fn 0) (JSVal.num 2000) JSVal.undef).maxInterval
        = JSVal.num 1000
    ∧ ¬ ((2000 : ℚ) ≤ (1000 : ℚ)) := by
  decide

/-- C1 witness: constructing with the numeric option `{minInterval: 250}`
and absent `maxInterval` satisfies the amended range invariant. -/
theorem c1_bounds_invariant_amended_witness :
    (JSVal.num 250 = JSVal.undef ∨ typeofNumber (JSVal.num 250) = true)
    ∧ boundsInRange (newIntervalJitter (JSVal.fn 0) (JSVal.num 250) JSVal.undef) :=
  ⟨Or.inr rfl,
   c1_bounds_invariant_amended.1 (JSVal.fn 0) (JSVal.num 250) JSVal.undef
     (Or.inr rfl) (Or.inl rfl)⟩

/-- With numeric bound fields the drawn delay is exactly
`min + floor(r * (max - min + 1))`. -/
theorem drawDelay_num (r a b : ℚ) (j : IntervalJitter)
    (hmin : j.minInterval = JSVal.num a) (hmax : j.maxInterval = JSVal.num b) :
    drawDelay r j = JSVal.num ((⌊r * (b - a + 1)⌋ : ℤ) + a) := by
  unfold drawDelay
  rw [hmin, hmax]
  rfl

/-- `drawDelay` reads only the two bound fields. -/
theorem drawDelay_congr (r : ℚ) (j j' : IntervalJitter)
    (h1 : j.minInterval = j'.minInterval) (h2 : j.maxInterval = j'.maxInterval) :
    drawDelay r j = drawDelay r j' := by
  unfold drawDelay
  rw [h1, h2]

/-- When the instance is not stopped, a loop entry stores the drawn delay in
`randomInterval`. -/
theorem run_randomInterval (r : ℚ) (s : Sys) :
    (Sys.run r s).jit.randomInterval = drawDelay r s.jit := by
  unfold Sys.run Sys.loopStep
  split
  · simp_all
  · exact drawDelay_congr r _ _ rfl rfl

/-- C6 (amended): on a loop entry of a running instance, the stored delay is
exactly `minInterval + floor(r * (maxInterval - minInterval + 1))` for the
fresh draw `r`, computed from the current bound values; when moreover both
bounds are integers with `0 ≤ min ≤ max`, the drawn delay is an integer `k`
with `min ≤ k ≤ max`.  (For non-integer bounds, which the setters accept,
the bound `k ≤ max` can fail — see the counterexample.) -/
theorem c6_draw_in_range_amended (s : Sys) (r : ℚ) (m M : ℤ)
    (hstop : s.jit.stopped = false)
    (hmin : s.jit.minInterval = JSVal.num (m : ℚ))
    (hmax : s.jit.maxInterval = JSVal.num (M : ℚ))
    (hm : 0 ≤ m) (hmM : m ≤ M) (hr0 : 0 ≤ r) (hr1 : r < 1) :
    (Sys.loopStep r s).jit.randomInterval = drawDelay r s.jit
    ∧ ∃ k : ℤ, drawDelay r s.jit = JSVal.num (k : ℚ) ∧ m ≤ k ∧ k ≤ M := by
  constructor
  · unfold Sys.loopStep
    simp [hstop]
  · have hdd := drawDelay_num r (m : ℚ) (M : ℚ) s.jit hmin hmax
    refine ⟨⌊r * ((M : ℚ) - (m : ℚ) + 1)⌋ + m, ?_, ?_, ?_⟩
    · rw [hdd]
      congr 1
      push_cast
      ring
    · have h0 : (0 : ℚ) ≤ r * ((M : ℚ) - (m : ℚ) + 1) :=
        mul_nonneg hr0 (by push_cast; exact_mod_cast by linarith)
      have hf : 0 ≤ ⌊r * ((M : ℚ) - (m : ℚ) + 1)⌋ := Int.floor_nonneg.mpr h0
      omega
    · have hL : (0 : ℚ) < (M : ℚ) - (m : ℚ) + 1 := by
        have : ((0 : ℤ) : ℚ) < ((M - m + 1 : ℤ) : ℚ) := by exact_mod_cast by omega
        push_cast at this
        linarith
      have hlt : r * ((M : ℚ) - (m : ℚ) + 1) < (M : ℚ) - (m : ℚ) + 1 := by
        nlinarith
      have hfl : ⌊r * ((M : ℚ) - (m : ℚ) + 1)⌋ < M - m + 1 := by
        apply Int.floor_lt.mpr
        push_cast
        linarith
      omega

/-- C6 counterexample: the setters accept the fractional bound `1/2`, and
then with draw `r = 9/10` the loop stores the delay
`0 + floor(9/10 * (1/2 - 0 + 1)) = 1`, which exceeds `maxInterval = 1/2`
even though `0 ≤ minInterval ≤ maxInterval` holds — so under the claim's
stated precondition the drawn delay is neither guaranteed an integer within
the bounds nor `≤ maxInterval`. -/
theorem c6_draw_counterexample :
    ((newIntervalJitter (JSVal.fn 0) JSVal.undef JSVal.undef).setMaxInterval
        (JSVal.num (1/2))).minInterval = JSVal.num 0
    ∧ ((newIntervalJitter (JSVal.fn 0) JSVal.undef JSVal.undef).setMaxInterval
        (JSVal.num (1/2))).maxInterval = JSVal.num (1/2)
    ∧ ((0 : ℚ) ≤ 0 ∧ (0 : ℚ) ≤ 1/2)
    ∧ (Sys.run (9/10)
        (initSys ((newIntervalJitter (JSVal.fn 0) JSVal.undef JSVal.undef).setMaxInterval
          (JSVal.num (1/2))))).jit.randomInterval = JSVal.num 1
    ∧ ¬ ((1 : ℚ) ≤ 1/2) := by
  have hmin0 : ((newIntervalJitter (JSVal.fn 0) JSVal.undef JSVal.undef).setMaxInterval
      (JSVal.num (1/2))).minInterval = JSVal.num 0 := by
    rw [setMax_minInterval]; decide
  have hmax12 : ((newIntervalJitter (JSVal.fn 0) JSVal.undef JSVal.undef).setMaxInterval
      (JSVal.num (1/2))).maxInterval = JSVal.num (1/2) :=
    setMax_valid_num _ (1/2) 0 (by decide) le_rfl (by norm_num)
      (by norm_num [INTERVAL_JITTER_MAX_INTERVAL])
  refine ⟨hmin0, hmax12, ⟨le_rfl, by norm_num⟩, ?_, by norm_num⟩
  rw [run_randomInterval]
  rw [drawDelay_num (9/10) 0 (1/2)
    (initSys ((newIntervalJitter (JSVal.fn 0) JSVal.undef JSVal.undef).setMaxInterval
      (JSVal.num (1/2)))).jit hmin0 hmax12]
  have hfl : (⌊(9/10 : ℚ) * ((1/2 : ℚ) - 0 + 1)⌋ : ℤ) = 1 := by
    rw [Int.floor_eq_iff] <;> norm_num
  rw [hfl]
  norm_num

/-- C6 witness: a freshly started default instance (`min = 0`, `max = 1000`,
integer bounds) with draw `r = 0` satisfies the amended statement. -/
theorem c6_draw_in_range_amended_witness :
    (Sys.run 0 (initSys (newIntervalJitter (JSVal.fn 0) JSVal.undef JSVal.undef))).jit.stopped
        = false
    ∧ ∃ k : ℤ,
        drawDelay 0
            (Sys.run 0 (initSys (newIntervalJitter (JSVal.fn 0) JSVal.undef JSVal.undef))).jit
          = JSVal.num (k : ℚ) ∧ 0 ≤ k ∧ k ≤ 1000 :=
  ⟨by decide,
   (c6_draw_in_range_amended
      (Sys.run 0 (initSys (newIntervalJitter (JSVal.fn 0) JSVal.undef JSVal.undef)))
      0 0 1000 (by decide)
      (by rw [show ((0 : ℤ) : ℚ) = 0 by norm_num]; decide)
      (by rw [show ((1000 : ℤ) : ℚ) = 1000 by norm_num]; decide)
      (by decide) (by decide) le_rfl (by norm_num)).2⟩

/-- Firing any timer id on a state with an empty pending queue is a no-op. -/
theorem fireTimer_pending_nil (cbRet : JSVal → JSVal) (id : ℕ) (r : ℚ) (s : Sys)
    (h : s.pending = []) : Sys.fireTimer cbRet id r s = s := by
  unfold Sys.fireTimer
  rw [if_neg (by simp [h]), if_neg (by simp [h])]

/-- Firing any sequence of timers on a state with an empty pending queue is a
no-op. -/
theorem fireAll_pending_nil (cbRet : JSVal → JSVal) (l : List (ℕ × ℚ)) (s : Sys)
    (h : s.pending = []) : Sys.fireAll cbRet l s = s := by
  induction l with
  | nil => rfl
  | cons p t ih =>
      show Sys.fireAll cbRet t (Sys.fireTimer cbRet p.1 p.2 s) = s
      rw [fireTimer_pending_nil cbRet p.1 p.2 s h]
      exact ih

/-- Membership after a guarded `clearTimeout`: the element was pending before
and, when the cleared handle is a truthy id, differs from that id. -/
theorem mem_clearIfTruthy {p : List (ℕ × TimerKind)} {h : Option ℕ} {x : ℕ × TimerKind}
    (hx : x ∈ Sys.clearIfTruthy p h) :
    x ∈ p ∧ ∀ i, h = some i → i ≠ 0 → x.1 ≠ i := by
  cases h with
  | none =>
      refine ⟨hx, ?_⟩
      intro i hi
      cases hi
  | some i =>
      simp only [Sys.clearIfTruthy] at hx
      by_cases hi : i ≠ 0
      · rw [if_pos hi] at hx
        have hm := List.mem_filter.mp hx
        refine ⟨hm.1, ?_⟩
        intro i' hi' _
        cases hi'
        simpa using hm.2
      · rw [if_neg hi] at hx
        refine ⟨hx, ?_⟩
        intro i' hi' hne
        cases hi'
        exact absurd hne hi

/-- After `stop`, a tracked instance has no pending timers at all. -/
theorem stop_pending_nil (s : Sys) (hT : Tracked s) : (Sys.stop s).pending = [] := by
  have hrepr : (Sys.stop s).pending
      = Sys.clearIfTruthy (Sys.clearIfTruthy s.pending s.jit.outerTimeoutTimer)
          s.jit.innerTimeoutTimer := rfl
  rw [hrepr, List.eq_nil_iff_forall_not_mem]
  intro x hx
  have h2 := mem_clearIfTruthy hx
  have h1 := mem_clearIfTruthy h2.1
  obtain ⟨hx0, hcase⟩ := hT x h1.1
  rcases hcase with ho | hi
  · exact h1.2 x.1 ho hx0 rfl
  · exact h2.2 x.1 hi hx0 rfl

/-- C4 (amended): provided every pending timer of the instance is recorded in
one of its two handle fields (true along any single-loop execution; a
re-entrant `run` violates it — see the counterexample), `stop()` cancels both
pending handles, sets the stopped flag, and empties the instance's pending
timer queue, so that no sequence of subsequent timer firings — however long,
i.e. however much time elapses — changes the state or invokes the callback
again, until a subsequent `run`. -/
theorem c4_stop_halts (s : Sys) (hT : Tracked s) :
    (Sys.stop s).pending = []
    ∧ (Sys.stop s).jit.stopped = true
    ∧ ∀ (cbRet : JSVal → JSVal) (l : List (ℕ × ℚ)),
        Sys.fireAll cbRet l (Sys.stop s) = Sys.stop s
        ∧ countCb (Sys.fireAll cbRet l (Sys.stop s)).trace = countCb (Sys.stop s).trace := by
  have hnil := stop_pending_nil s hT
  refine ⟨hnil, rfl, ?_⟩
  intro cbRet l
  have hfix := fireAll_pending_nil cbRet l (Sys.stop s) hnil
  exact ⟨hfix, by rw [hfix]⟩

/-- C4 counterexample: calling `run` twice without an intervening `stop`
leaks the first loop's outer timer (its handle is overwritten by the second
`run`), so `stop` cannot cancel it; when the host then fires that leaked
timer, the callback IS invoked after `stop` — the trace contains one callback
invocation after `stop` although it contained none at the moment `stop`
returned. -/
theorem c4_stop_halts_counterexample :
    countCb (Sys.stop (Sys.run 0 (Sys.run 0
        (initSys (newIntervalJitter (JSVal.fn 0) JSVal.undef JSVal.undef))))).trace = 0
    ∧ countCb ((Sys.fireTimer (fun _ => JSVal.undef) 1 0
        (Sys.stop (Sys.run 0 (Sys.run 0
          (initSys (newIntervalJitter (JSVal.fn 0) JSVal.undef JSVal.undef)))))).trace) = 1 := by
  constructor
  · rfl
  · rfl

/-- C4 witness: a default instance after a single `run` is tracked (its one
pending outer timer is recorded in `outerTimeoutTimer`), and `stop` then
empties its pending queue. -/
theorem c4_stop_halts_witness :
    Tracked (Sys.run 0 (initSys (newIntervalJitter (JSVal.fn 0) JSVal.undef JSVal.undef)))
    ∧ (Sys.stop (Sys.run 0
        (initSys (newIntervalJitter (JSVal.fn 0) JSVal.undef JSVal.undef)))).pending = [] :=
  ⟨by decide,
   (c4_stop_halts
      (Sys.run 0 (initSys (newIntervalJitter (JSVal.fn 0) JSVal.undef JSVal.undef)))
      (by decide)).1⟩

/-- Every operation extends the trace by a block containing equally many
callback events and hook events (in fact the only block containing either is
the outer-timer firing, which appends exactly one of each). -/
theorem applyOp_trace (cbRet : JSVal → JSVal) (s : Sys) (op : Op) :
    ∃ l, (applyOp cbRet s op).trace = s.trace ++ l ∧ countHook l = countCb l := by
  cases op with
  | runOp r =>
      show ∃ l, (Sys.run r s).trace = s.trace ++ l ∧ countHook l = countCb l
      unfold Sys.run Sys.loopStep
      split
      · exact ⟨[], by simp, rfl⟩
      · exact ⟨[Ev.schedOuter s.nextId], rfl, rfl⟩
  | stopOp =>
      show ∃ l, (Sys.stop s).trace = s.trace ++ l ∧ countHook l = countCb l
      exact ⟨[], by simp [Sys.stop], rfl⟩
  | fireOp id r =>
      show ∃ l, (Sys.fireTimer cbRet id r s).trace = s.trace ++ l ∧ countHook l = countCb l
      unfold Sys.fireTimer
      split
      · exact ⟨[Ev.cb (cbRet s.jit.callback), Ev.hook (cbRet s.jit.callback),
          Ev.schedInner s.nextId], rfl, rfl⟩
      · split
        · unfold Sys.loopStep
          split
          · exact ⟨[], by simp, rfl⟩
          · exact ⟨[Ev.schedOuter s.nextId], rfl, rfl⟩
        · exact ⟨[], by simp, rfl⟩
  | setMinOp v =>
      exact ⟨[], by simp [applyOp], rfl⟩
  | setMaxOp v =>
      exact ⟨[], by simp [applyOp], rfl⟩
  | setCbOp v =>
      exact ⟨[], by simp [applyOp], rfl⟩

/-- Along any operation sequence, the callback-count/hook-count balance of
the trace is preserved. -/
theorem countHook_eq_countCb_execOps (cbRet : JSVal → JSVal) (ops : List Op) (s : Sys)
    (h : countHook s.trace = countCb s.trace) :
    countHook (execOps cbRet s ops).trace = countCb (execOps cbRet s ops).trace := by
  induction ops generalizing s with
  | nil => exact h
  | cons op t ih =>
      show countHook (execOps cbRet (applyOp cbRet s op) t).trace
          = countCb (execOps cbRet (applyOp cbRet s op) t).trace
      apply ih
      obtain ⟨l, hl, hc⟩ := applyOp_trace cbRet s op
      rw [hl]
      unfold countHook countCb at h hc ⊢
      rw [List.countP_append, List.countP_append]
      omega

/-- C8: the default `onCallbackExecuted` hook is a no-op on the instance
state; an outer-timer firing appends to the trace exactly the block
"callback invoked with result `res`, hook invoked with that same `res`,
inner yield scheduled" — so the hook runs exactly once per callback
invocation, synchronously with the callback's return value and before the
next-iteration yield is scheduled; consequently after any operation sequence
from a freshly constructed instance the number of hook invocations equals
the number N of callback invocations. -/
theorem c8_hook_per_callback (cbRet : JSVal → JSVal) :
    (∀ (j : IntervalJitter) (res : JSVal), j.onCallbackExecuted res = j)
    ∧ (∀ (s : Sys) (id : ℕ) (r : ℚ), (id, TimerKind.outer) ∈ s.pending →
        (Sys.fireTimer cbRet id r s).trace
          = s.trace ++ [Ev.cb (cbRet s.jit.callback), Ev.hook (cbRet s.jit.callback),
              Ev.schedInner s.nextId])
    ∧ ∀ (cb mo mx : JSVal) (ops : List Op),
        countHook (execOps cbRet (initSys (newIntervalJitter cb mo mx)) ops).trace
          = countCb (execOps cbRet (initSys (newIntervalJitter cb mo mx)) ops).trace := by
  refine ⟨fun j res => rfl, ?_, ?_⟩
  · intro s id r h
    unfold Sys.fireTimer
    rw [if_pos h]
  · intro cb mo mx ops
    exact countHook_eq_countCb_execOps cbRet ops _ rfl

/-- C8 witness: firing the single pending outer timer of a freshly started
default instance appends exactly the callback/hook/yield block, and a
concrete three-operation sequence (start, fire the outer timer, fire the
yield) keeps hook invocations equal to callback invocations. -/
theorem c8_hook_per_callback_witness :
    ((1, TimerKind.outer)
        ∈ (Sys.run 0 (initSys (newIntervalJitter (JSVal.fn 0) JSVal.undef JSVal.undef))).pending)
    ∧ (Sys.fireTimer (fun _ => JSVal.undef) 1 0
        (Sys.run 0 (initSys (newIntervalJitter (JSVal.fn 0) JSVal.undef JSVal.undef)))).trace
      = (Sys.run 0 (initSys (newIntervalJitter (JSVal.fn 0) JSVal.undef JSVal.undef))).trace
        ++ [Ev.cb ((fun _ => JSVal.undef)
              (Sys.run 0 (initSys (newIntervalJitter (JSVal.fn 0) JSVal.undef
                JSVal.undef))).jit.callback),
            Ev.hook ((fun _ => JSVal.undef)
              (Sys.run 0 (initSys (newIntervalJitter (JSVal.fn 0) JSVal.undef
                JSVal.undef))).jit.callback),
            Ev.schedInner (Sys.run 0 (initSys (newIntervalJitter (JSVal.fn 0) JSVal.undef
              JSVal.undef))).nextId]
    ∧ countHook (execOps (fun _ => JSVal.undef)
          (initSys (newIntervalJitter (JSVal.fn 0) JSVal.undef JSVal.undef))
          [Op.runOp 0, Op.fireOp 1 0, Op.fireOp 2 0]).trace
      = countCb (execOps (fun _ => JSVal.undef)
          (initSys (newIntervalJitter (JSVal.fn 0) JSVal.undef JSVal.undef))
          [Op.runOp 0, Op.fireOp 1 0, Op.fireOp 2 0]).trace :=
  ⟨by decide,
   (c8_hook_per_callback (fun _ => JSVal.undef)).2.1 _ 1 0 (by decide),
   (c8_hook_per_callback (fun _ => JSVal.undef)).2.2 (JSVal.fn 0) JSVal.undef JSVal.undef
     [Op.runOp 0, Op.fireOp 1 0, Op.fireOp 2 0]⟩
